import Mathlib

set_option autoImplicit false

/-!
Shallow embedding of the chat-backend Socket.IO server (Python) and proofs
about its behaviour.  Each definition mirrors one function of the source
tree (src/app/...); machine-visible effects (Redis keys, database tables,
emitted Socket.IO events) are made explicit as values.  Python exceptions
are modelled with `Except`.
-/

namespace ChatBackend

abbrev UserId := String
abbrev RoomId := String
abbrev Sid := String

/-! ## Rate limiting (`RedisClient.check_rate_limit`, src/app/database/redis_client.py 124-148) -/

/-- State of the Redis counter key `ratelimit:{user_id}`: `none` when the key
is absent, `some (v, e)` when it holds value `v` and expires at absolute
time `e`.  A Redis GET at time `t` sees the key only while `t < e`;
SETEX with ttl `w` at time `t` sets the expiry to `t + w`; INCR does not
touch the ttl. -/
abbrev RateLimitKey := Option (Nat × Nat)

/-- Embeds `RedisClient.check_rate_limit(user_id, limit, window=60)`: GET the
counter; if absent (or expired) SETEX it to 1 with ttl `window` and allow;
if its value has reached `limit` refuse and leave the key untouched;
otherwise INCR (expiry unchanged) and allow. -/
def check_rate_limit (limit window now : Nat) (st : RateLimitKey) : Bool × RateLimitKey :=
  match st with
  | some (v, e) =>
    if now < e then
      if limit ≤ v then (false, some (v, e))
      else (true, some (v + 1, e))
    else (true, some (1, now + window))
  | none => (true, some (1, now + window))

/-- Run `check_rate_limit` at each time of the trace in order, counting the
calls that returned `true`. -/
def run_rate_limit (limit window : Nat) : List Nat → RateLimitKey → Nat × RateLimitKey
  | [], st => (0, st)
  | t :: ts, st =>
    let step := check_rate_limit limit window t st
    let rest := run_rate_limit limit window ts step.2
    ((if step.1 then 1 else 0) + rest.1, rest.2)

theorem run_rate_limit_nil (limit window : Nat) (st : RateLimitKey) :
    run_rate_limit limit window [] st = (0, st) := rfl

theorem run_rate_limit_cons (limit window t : Nat) (ts : List Nat) (st : RateLimitKey) :
    run_rate_limit limit window (t :: ts) st =
      ((if (check_rate_limit limit window t st).1 then 1 else 0)
          + (run_rate_limit limit window ts (check_rate_limit limit window t st).2).1,
        (run_rate_limit limit window ts (check_rate_limit limit window t st).2).2) := rfl

/-- While the counter key is alive at value `v`, a trace of further calls all
made before the expiry obtains at most `limit - v` successes. -/
theorem run_rate_limit_bound (limit window : Nat) (ts : List Nat) :
    ∀ v e, (∀ t ∈ ts, t < e) →
      (run_rate_limit limit window ts (some (v, e))).1 ≤ limit - v := by
  induction ts with
  | nil => intro v e _; simp [run_rate_limit]
  | cons t ts ih =>
    intro v e hlt
    have ht : t < e := hlt t (List.mem_cons_self t ts)
    have hts : ∀ u ∈ ts, u < e := fun u hu => hlt u (List.mem_cons_of_mem t hu)
    by_cases hv : limit ≤ v
    · have hstep : check_rate_limit limit window t (some (v, e)) = (false, some (v, e)) := by
        simp [check_rate_limit, ht, hv]
      rw [run_rate_limit_cons, hstep]
      simpa using ih v e hts
    · have hstep : check_rate_limit limit window t (some (v, e)) = (true, some (v + 1, e)) := by
        simp [check_rate_limit, ht, hv]
      rw [run_rate_limit_cons, hstep]
      have h2 := ih (v + 1) e hts
      simp only [if_true, eq_self_iff_true]
      omega

/-- C4: the rate limiter creates an absent counter at value 1 with ttl
`window` and allows; refuses and leaves the counter untouched once the value
has reached `limit`; otherwise increments without resetting the ttl and
allows; consequently a trace of calls confined to one fixed window obtains
at most `limit` successes. -/
theorem claim_C4_rate_limiter (limit window : Nat) (hlim : 1 ≤ limit) :
    (∀ now, check_rate_limit limit window now none = (true, some (1, now + window))) ∧
    (∀ now v e, now < e → limit ≤ v →
        check_rate_limit limit window now (some (v, e)) = (false, some (v, e))) ∧
    (∀ now v e, now < e → v < limit →
        check_rate_limit limit window now (some (v, e)) = (true, some (v + 1, e))) ∧
    (∀ now ts, (∀ t ∈ ts, t < now + window) →
        (run_rate_limit limit window (now :: ts) none).1 ≤ limit) := by
  refine ⟨fun now => rfl, ?_, ?_, ?_⟩
  · intro now v e h1 h2
    simp [check_rate_limit, h1, h2]
  · intro now v e h1 h2
    simp [check_rate_limit, h1, Nat.not_le.mpr h2]
  · intro now ts hts
    have hfirst : check_rate_limit limit window now none = (true, some (1, now + window)) := rfl
    rw [run_rate_limit_cons, hfirst]
    have hb := run_rate_limit_bound limit window ts 1 (now + window) hts
    simp only [if_true, eq_self_iff_true]
    omega

/-- Witness for C4 at `limit = 30`, `window = 60` (the configured
`MAX_MESSAGES_PER_MINUTE`): a burst of 40 calls inside one window is allowed
at most 30 times. -/
theorem claim_C4_rate_limiter_witness :
    (run_rate_limit 30 60 (0 :: (List.range 39).map (fun i => i + 1)) none).1 ≤ 30 :=
  (claim_C4_rate_limiter 30 60 (by decide)).2.2.2 0 ((List.range 39).map (fun i => i + 1))
    (by decide)

/-! ## Room membership check (`_check_room_membership`, src/app/sockets/events.py 406-430) -/

/-- The Redis set `room_members:{room_id}`: `none` when the key is absent,
`some l` when it holds the member set `l` (`RedisClient.get_cached_room_members`
returns the members exactly when the key EXISTS). -/
abbrev RoomMembersKey := Option (List UserId)

/-- A row of the `room_members` table, as (room_id, user_id). -/
abbrev MemberRow := RoomId × UserId

/-- Embeds `RedisClient.cache_room_members` (src/app/database/redis_client.py
177-186): DEL the old key, then SADD the whole list only when it is
nonempty, so caching an empty list leaves the key absent. -/
def cache_room_members (member_ids : List UserId) : RoomMembersKey :=
  if member_ids.isEmpty then none else some member_ids

/-- Result of one membership check: the verdict, the membership-cache key
afterwards, and whether the `room_members` table was queried. -/
structure MembershipCheck where
  is_member : Bool
  cache : RoomMembersKey
  repo_queried : Bool
deriving Repr, DecidableEq

/-- The member ids the repository holds for a room
(`select user_id from room_members where room_id = ...`). -/
def repo_members (room_id : RoomId) (repo : List MemberRow) : List UserId :=
  (repo.filter (fun p => p.1 == room_id)).map (fun p => p.2)

/-- Embeds `_check_room_membership(user_id, room_id)` (src/app/sockets/events.py
406-430): when the cached member set is truthy (present and nonempty) the
answer comes from it alone; otherwise the `room_members` table is queried,
and on a positive verdict the full member list of the room is re-cached. -/
def check_room_membership (user_id : UserId) (room_id : RoomId)
    (cache : RoomMembersKey) (repo : List MemberRow) : MembershipCheck :=
  match cache with
  | some (m :: ms) => ⟨(m :: ms).contains user_id, some (m :: ms), false⟩
  | _ =>
    let is_member := (repo.filter (fun p => p.1 == room_id && p.2 == user_id)).length > 0
    if is_member then
      ⟨true, cache_room_members (repo_members room_id repo), true⟩
    else
      ⟨false, cache, true⟩

/-- Would the cached set alone grant access to this user? -/
def cache_grants (user_id : UserId) (cache : RoomMembersKey) : Bool :=
  match cache with
  | some l => l.contains user_id
  | none => false

/-- C1 as stated is false: with the cached set `[alice]` and a repository in
which bob is a member of the room, checking bob is a stale-false where no
repository read happens at all and the wrong cached verdict is returned with
the cache left as it was. -/
theorem claim_C1_counterexample :
    cache_grants "bob" (some ["alice"]) = false ∧
    ("r1", "bob") ∈ [("r1", "alice"), ("r1", "bob")] ∧
    check_room_membership "bob" "r1" (some ["alice"]) [("r1", "alice"), ("r1", "bob")]
      = ⟨false, some ["alice"], false⟩ := by
  refine ⟨rfl, by decide, rfl⟩

/-- C1 amended: the repository is read exactly on a cache miss (key absent or
empty).  A nonempty cached set decides the check by itself, with no
repository read, even when it disagrees with the repository; on a miss the
repository verdict is returned and the cache is rebuilt from the full
repository member list exactly when that verdict is positive. -/
theorem claim_C1_membership_cache (user_id : UserId) (room_id : RoomId)
    (cache : RoomMembersKey) (repo : List MemberRow) :
    (∀ m ms, cache = some (m :: ms) →
        check_room_membership user_id room_id cache repo
          = ⟨(m :: ms).contains user_id, cache, false⟩) ∧
    ((cache = none ∨ cache = some []) →
        check_room_membership user_id room_id cache repo
          = if (repo.filter (fun p => p.1 == room_id && p.2 == user_id)).length > 0 then
              ⟨true, cache_room_members (repo_members room_id repo), true⟩
            else
              ⟨false, cache, true⟩) := by
  constructor
  · intro m ms hc
    subst hc
    rfl
  · intro hmiss
    rcases hmiss with h | h <;> subst h <;> rfl

/-- Witness for C1 (amended): a concrete miss where the user is a repository
member, so the verdict is positive and the cache is rebuilt. -/
theorem claim_C1_membership_cache_witness :
    check_room_membership "bob" "r1" none [("r1", "alice"), ("r1", "bob")]
      = ⟨true, some ["alice", "bob"], true⟩ :=
  ((claim_C1_membership_cache "bob" "r1" none [("r1", "alice"), ("r1", "bob")]).2
      (Or.inl rfl)).trans (by decide)

/-! ## Messages, emitted events -/

/-- A row of the `messages` table; the same shape serves as the message
envelope broadcast by `send_message` and queued for offline members. -/
structure MessageRow where
  id : String
  room_id : RoomId
  sender_id : UserId
  content : Option String
  message_type : String
  reply_to : Option String
  is_edited : Bool
  is_deleted : Bool
  updated_at : Nat
deriving Repr, DecidableEq

/-- A Socket.IO emit, with its event name, payload and routing (a `to_sid`
field routes to that one connection; `skip` is the `skip_sid` argument). -/
inductive Emit where
  | error (to_sid : Sid) (message : String)
  | message (to_sid : Sid) (m : MessageRow)
  | message_edited (room : RoomId) (m : MessageRow)
  | message_deleted (room : RoomId) (message_id : String)
  | user_left_room (room : RoomId) (user : UserId)
  | user_typing (room : RoomId) (user : UserId) (skip : Sid)
  | user_stopped_typing (room : RoomId) (user : UserId) (skip : Sid)
  | user_status_changed (user : UserId) (status : String) (skip : Sid)
  | user_online (user : UserId) (skip : Sid)
  | user_offline (user : UserId)
deriving Repr, DecidableEq

/-! ## Offline message queues (`RedisClient`, src/app/database/redis_client.py 103-121) -/

/-- The Redis list keys `queue:{user_id}`, head first. -/
abbrev Queues := List (UserId × List MessageRow)

/-- Contents of `queue:{u}` (LRANGE key 0 -1; an absent key reads as empty). -/
def get_queue (qs : Queues) (u : UserId) : List MessageRow :=
  (qs.lookup u).getD []

/-- Overwrite `queue:{u}`. -/
def set_queue (qs : Queues) (u : UserId) (l : List MessageRow) : Queues :=
  (u, l) :: qs.filter (fun p => p.1 != u)

/-- DEL `queue:{u}`. -/
def del_queue (qs : Queues) (u : UserId) : Queues :=
  qs.filter (fun p => p.1 != u)

/-- Embeds `RedisClient.queue_message(user_id, message_data)`: LPUSH the serialized
envelope at the head of `queue:{user_id}` (then EXPIRE, which does not move
any element). -/
def queue_message (u : UserId) (m : MessageRow) (qs : Queues) : Queues :=
  set_queue qs u (m :: get_queue qs u)

/-- Embeds `RedisClient.get_queued_messages(user_id)`: LRANGE the whole list
head-to-tail, then DEL the key, returning the fetched envelopes. -/
def get_queued_messages (u : UserId) (qs : Queues) : List MessageRow × Queues :=
  (get_queue qs u, del_queue qs u)

/-- The queued-message drain inside `connect` (src/app/sockets/events.py
57-62): fetch-and-delete the queue, then emit each envelope in fetched order
as a `message` event to the new socket id only. -/
def drain_queued_messages (u : UserId) (sid : Sid) (qs : Queues) :
    List Emit × Queues :=
  let fetched := get_queued_messages u qs
  (fetched.1.map (fun m => Emit.message sid m), fetched.2)

theorem lookup_filter_ne_self (qs : Queues) (u : UserId) :
    (qs.filter (fun p => p.1 != u)).lookup u = none := by
  induction qs with
  | nil => rfl
  | cons p qs ih =>
    obtain ⟨k, v⟩ := p
    rw [List.filter_cons]
    by_cases h : k = u
    · simpa [h] using ih
    · rw [if_pos (by simp [h])]
      have hk : (u == k) = false := by
        simp only [beq_eq_false_iff_ne, ne_eq]
        exact fun e => h e.symm
      simpa [List.lookup, hk] using ih

theorem get_queue_set_queue (qs : Queues) (u : UserId) (l : List MessageRow) :
    get_queue (set_queue qs u l) u = l := by
  simp [get_queue, set_queue, List.lookup]

theorem get_queue_del_queue (qs : Queues) (u : UserId) :
    get_queue (del_queue qs u) u = [] := by
  simp [get_queue, del_queue, lookup_filter_ne_self]

/-- C10: enqueueing pushes at the head and the drain reads head-to-tail, so
after queueing m1 then m2 the drain emits m2 first, then m1, then any older
envelopes, all to the new socket only, and leaves the queue empty. -/
theorem claim_C10_queue_order (qs : Queues) (u : UserId) (m1 m2 : MessageRow)
    (sid : Sid) :
    (drain_queued_messages u sid (queue_message u m2 (queue_message u m1 qs))).1
      = Emit.message sid m2 :: Emit.message sid m1
          :: (get_queue qs u).map (fun m => Emit.message sid m) ∧
    get_queue
      (drain_queued_messages u sid (queue_message u m2 (queue_message u m1 qs))).2 u
      = [] := by
  constructor
  · simp [drain_queued_messages, get_queued_messages, queue_message,
      get_queue_set_queue]
  · simp [drain_queued_messages, get_queued_messages, get_queue_del_queue]

/-! ## Presence keys (`RedisClient`, src/app/database/redis_client.py 71-99) -/

/-- The Redis keys `presence:{user_id}` with their status value; a user is
online iff the key is present. -/
abbrev Presence := List (UserId × String)

/-- Embeds `RedisClient.set_user_online`: SETEX the presence key. -/
def set_user_online (u : UserId) (status : String) (p : Presence) : Presence :=
  (u, status) :: p.filter (fun q => q.1 != u)

/-- Embeds `RedisClient.set_user_offline`: DEL the presence key. -/
def set_user_offline (u : UserId) (p : Presence) : Presence :=
  p.filter (fun q => q.1 != u)

/-- Embeds `RedisClient.is_user_online`: EXISTS on the presence key. -/
def is_user_online (p : Presence) (u : UserId) : Bool :=
  (p.lookup u).isSome

/-! ## Notifications (`NotificaitonService`, src/app/services/notification.py) -/

/-- A row of the `notifications` table. -/
structure NotificationRow where
  user_id : UserId
  title : String
  body : Option String
  notification_type : String
  reference_id : Option String
  is_read : Bool
deriving Repr, DecidableEq

/-- The object `db.table(...).insert(payload)` evaluates to before
`.execute()` is called: a request builder holding the pending row, not a
query result. -/
structure InsertBuilder (ρ : Type) where
  pending : ρ
deriving Repr, DecidableEq

/-- Reading `.data` on a request builder raises AttributeError; only an
executed result carries `.data`. -/
def InsertBuilder.data {ρ : Type} (_ : InsertBuilder ρ) : Except String (List ρ) :=
  .error "AttributeError: request builder has no attribute data"

/-- Embeds `NotificaitonService.create_notification` (src/app/services/notification.py
12-44): the insert request is built but `.execute()` is never called, so no
row reaches the table; the `result.data` access raises AttributeError, the
`except` swallows it and the function returns None. -/
def create_notification (tbl : List NotificationRow) (user_id : UserId)
    (title : String) (body : Option String) (notification_type : String)
    (reference_id : Option String) :
    List NotificationRow × Option NotificationRow :=
  let result : InsertBuilder NotificationRow :=
    ⟨⟨user_id, title, body, notification_type, reference_id, false⟩⟩
  match result.data with
  | .ok rows => (tbl, rows.head?)
  | .error _ => (tbl, none)

/-- One iteration of the member loop of `_notify_offline_members`: skip
online members, otherwise enqueue the envelope and call
`create_notification` with title Nova mensagem, the content (or the
placeholder Arquivo), type new_message and the message id. -/
def notify_member_step (message : MessageRow) (presence : Presence)
    (acc : Queues × List NotificationRow) (member_id : UserId) :
    Queues × List NotificationRow :=
  if is_user_online presence member_id then acc
  else
    (queue_message member_id message acc.1,
     (create_notification acc.2 member_id "Nova mensagem"
        (some (message.content.getD "Arquivo")) "new_message"
        (some message.id)).1)

/-- Embeds `_notify_offline_members(room_id, sender_id, message)`
(src/app/sockets/events.py 432-459): select the room members other than the
sender and run the loop over them. -/
def notify_offline_members (room_id : RoomId) (sender_id : UserId)
    (message : MessageRow) (members : List MemberRow) (presence : Presence)
    (qs : Queues) (tbl : List NotificationRow) :
    Queues × List NotificationRow :=
  let rows := (members.filter
    (fun p => p.1 == room_id && p.2 != sender_id)).map (fun p => p.2)
  rows.foldl (notify_member_step message presence) (qs, tbl)

theorem notify_member_step_snd (message : MessageRow) (presence : Presence)
    (acc : Queues × List NotificationRow) (member_id : UserId) :
    (notify_member_step message presence acc member_id).2 = acc.2 := by
  unfold notify_member_step
  split <;> rfl

theorem notify_fold_snd (message : MessageRow) (presence : Presence)
    (rows : List UserId) :
    ∀ acc : Queues × List NotificationRow,
      (rows.foldl (notify_member_step message presence) acc).2 = acc.2 := by
  induction rows with
  | nil => intro acc; rfl
  | cons r rows ih =>
    intro acc
    rw [List.foldl_cons, ih]
    exact notify_member_step_snd message presence acc r

/-- Sample message for evaluating the offline fan-out at a concrete input. -/
def msg_hello : MessageRow :=
  ⟨"m1", "r1", "eve", some "hello", "text", none, false, false, 0⟩

/-- C2 is violated: no call to `_notify_offline_members` ever inserts a
notifications row (the insert lacks `.execute()`), and at the concrete input
of the spec scenario the envelope is queued for the offline member frank
while the notifications table stays empty. -/
theorem claim_C2_notification_never_inserted :
    (∀ room_id sender_id message members presence qs tbl,
      (notify_offline_members room_id sender_id message members presence
        qs tbl).2 = tbl) ∧
    notify_offline_members "r1" "eve" msg_hello
        [("r1", "eve"), ("r1", "frank")] [("eve", "online")] [] []
      = ([("frank", [msg_hello])], []) := by
  constructor
  · intro room_id sender_id message members presence qs tbl
    exact notify_fold_snd message presence _ (qs, tbl)
  · rfl

/-! ## Handshake authentication (src/app/middleware/auth.py) -/

/-- The result of a successful `verify_jwt_token`: the sub, email and role
claims of the decoded JWT. -/
structure UserData where
  user_id : UserId
  email : Option String
  role : Option String
deriving Repr, DecidableEq

/-- The Socket.IO auth payload dict as read by
`extract_token_from_handshake`: the string values at the keys `token` and
`Authorization`, when present. -/
structure AuthData where
  token : Option String
  authorization : Option String
deriving Repr, DecidableEq

/-- A whole connection handshake: the auth payload plus the token query
parameter of the websocket URL.  The query string travels in the WSGI
environ, which `connect` never passes on and no auth code reads. -/
structure Handshake where
  auth : AuthData
  query_token : Option String
deriving Repr, DecidableEq

/-- Embeds `extract_token_from_handshake(auth_data)` (src/app/middleware/auth.py
52-71): return the value at key `token` when present, else the value after
the Bearer prefix of the key `Authorization`, else None.  Despite its
docstring, no branch reads a query parameter. -/
def extract_token_from_handshake (auth_data : AuthData) : Option String :=
  match auth_data.token with
  | some t => some t
  | none =>
    match auth_data.authorization with
    | some h => if h.startsWith "Bearer " then some (h.drop 7) else none
    | none => none

/-! ## Sessions, profiles, the connection registry and `connect`/`disconnect` -/

/-- The Redis keys `session:{user_id}:{socket_id}` with their stored value. -/
abbrev Sessions := List (String × String)

def session_key (u : UserId) (sid : Sid) : String :=
  "session:" ++ u ++ ":" ++ sid

/-- Embeds `json.dump(data)` as called by `RedisClient.set_user_session`
(src/app/database/redis_client.py 43): `json.dump` needs a file object as
its second argument, so the call raises TypeError before SETEX runs
(`json.dumps` was meant). -/
def json_dump (_data : UserData) : Except String String :=
  .error "TypeError: dump missing 1 required positional argument"

/-- Embeds `RedisClient.set_user_session(user_id, socket_id, data)`: serialize the
payload, then SETEX `session:{user_id}:{socket_id}`. -/
def set_user_session (u : UserId) (sid : Sid) (data : UserData)
    (ss : Sessions) : Except String Sessions :=
  match json_dump data with
  | .error e => .error e
  | .ok payload =>
    .ok ((session_key u sid, payload)
        :: ss.filter (fun p => p.1 != session_key u sid))

/-- Embeds `RedisClient.delete_user_session`: DEL the session key. -/
def delete_user_session (u : UserId) (sid : Sid) (ss : Sessions) : Sessions :=
  ss.filter (fun p => p.1 != session_key u sid)

/-- A row of the `profiles` table (the columns presence updates touch). -/
structure ProfileRow where
  id : UserId
  status : String
  last_seen : Nat
deriving Repr, DecidableEq

/-- The profiles update both presence writers perform
(`update {status, last_seen} where id = user_id`). -/
def profiles_update_status (now : Nat) (u : UserId) (status : String)
    (tbl : List ProfileRow) : List ProfileRow :=
  tbl.map (fun r => if r.id == u then { r with status := status, last_seen := now } else r)

/-- Embeds `PresenceService.set_online(user_id, status)` (src/app/services/presence.py
10-28): SETEX the presence key and update the profiles row. -/
def presence_set_online (now : Nat) (u : UserId) (status : String)
    (p : Presence) (tbl : List ProfileRow) : Presence × List ProfileRow :=
  (set_user_online u status p, profiles_update_status now u status tbl)

/-- Embeds `PresenceService.set_offline(user_id)` (src/app/services/presence.py
30-48): DEL the presence key and update the profiles row to offline. -/
def presence_set_offline (now : Nat) (u : UserId)
    (p : Presence) (tbl : List ProfileRow) : Presence × List ProfileRow :=
  (set_user_offline u p, profiles_update_status now u "offline" tbl)

/-- Embeds `PresenceService.update_status(user_id, status)`
(src/app/services/presence.py 50-75): validate the status, route offline to
a key delete and everything else to a key set, update the profiles row. -/
def presence_update_status (now : Nat) (u : UserId) (status : String)
    (p : Presence) (tbl : List ProfileRow) :
    Bool × Presence × List ProfileRow :=
  if !(["online", "offline", "away", "busy"].contains status) then
    (false, p, tbl)
  else if status == "offline" then
    (true, set_user_offline u p, profiles_update_status now u status tbl)
  else
    (true, set_user_online u status p, profiles_update_status now u status tbl)

/-- The in-process `connected_user` dict: user_id to its socket ids. -/
abbrev Registry := List (UserId × List Sid)

/-- Appending a socket to `connected_user[user_id]` in `connect`. -/
def registry_add (reg : Registry) (u : UserId) (sid : Sid) : Registry :=
  match reg.lookup u with
  | some sids => (u, sids ++ [sid]) :: reg.filter (fun p => p.1 != u)
  | none => (u, [sid]) :: reg.filter (fun p => p.1 != u)

/-- Embeds `_get_user_id_from_sid(sid)` (src/app/sockets/events.py 398-404): the
first registry entry whose socket list holds `sid`. -/
def get_user_id_from_sid (reg : Registry) (sid : Sid) : Option UserId :=
  match reg.find? (fun p => p.2.contains sid) with
  | some p => some p.1
  | none => none

/-- The whole server-side state the connection lifecycle touches. -/
structure ConnState where
  sessions : Sessions
  presence : Presence
  profiles : List ProfileRow
  registry : Registry
  queues : Queues
deriving Repr, DecidableEq

/-- The `connect` handler (src/app/sockets/events.py 22-67).  JWT checking is
abstracted as the oracle `verify` (jose.jwt.decode under the configured
secret); a Python exception escaping the handler is `.error`, and an `.ok`
carries the new state, the emitted events and the accept verdict. -/
def connect (verify : String → Option UserData) (now : Nat) (sid : Sid)
    (auth : AuthData) (st : ConnState) :
    Except String (ConnState × List Emit × Bool) :=
  match extract_token_from_handshake auth with
  | none => .ok (st, [], false)
  | some token =>
    match verify token with
    | none => .ok (st, [], false)
    | some user_data =>
      let user_id := user_data.user_id
      match set_user_session user_id sid user_data st.sessions with
      | .error e => .error e
      | .ok sessions1 =>
        let pres := presence_set_online now user_id "online" st.presence st.profiles
        let registry1 := registry_add st.registry user_id sid
        let drained := drain_queued_messages user_id sid st.queues
        .ok ({ sessions := sessions1, presence := pres.1, profiles := pres.2,
               registry := registry1, queues := drained.2 },
             drained.1 ++ [Emit.user_online user_id sid], true)

/-- The `disconnect` handler (src/app/sockets/events.py 69-92): the sweep
over `connected_user` reaches `sockets.romove(sid)` - a misspelling of
remove - as soon as it finds the entry holding `sid`, so it raises
AttributeError right there; when no entry holds `sid` the handler falls
through without touching anything. -/
def disconnect (sid : Sid) (st : ConnState) :
    Except String (ConnState × List Emit) :=
  if st.registry.any (fun p => p.2.contains sid) then
    .error "AttributeError: list object has no attribute romove"
  else
    .ok (st, [])

/-- C3 is violated: every handshake whose token verifies raises TypeError
inside `set_user_session` (json.dump called without a file argument), so no
handshake ever completes and the drain after it never runs. -/
theorem claim_C3_connect_always_raises (verify : String → Option UserData)
    (now : Nat) (sid : Sid) (auth : AuthData) (st : ConnState)
    (token : String) (ud : UserData)
    (hx : extract_token_from_handshake auth = some token)
    (hv : verify token = some ud) :
    connect verify now sid auth st
      = .error "TypeError: dump missing 1 required positional argument" := by
  simp [connect, hx, hv, set_user_session, json_dump]

/-- Witness for C3: a concrete handshake whose token the oracle accepts,
with two envelopes waiting in the queue, still errors out. -/
theorem claim_C3_connect_always_raises_witness :
    connect (fun _ => some ⟨"u1", none, none⟩) 0 "s1" ⟨some "tok", none⟩
        ⟨[], [], [], [], [("u1", [msg_hello, msg_hello])]⟩
      = .error "TypeError: dump missing 1 required positional argument" :=
  claim_C3_connect_always_raises (fun _ => some ⟨"u1", none, none⟩) 0 "s1"
    ⟨some "tok", none⟩ ⟨[], [], [], [], [("u1", [msg_hello, msg_hello])]⟩
    "tok" ⟨"u1", none, none⟩ rfl rfl

/-- C7 is violated: a handshake carrying the token only as a query parameter
extracts nothing - `connect` forwards only the auth payload and
`extract_token_from_handshake` has no query branch, contrary to its own
docstring - so that carrier never authenticates; the connection is refused
for every verifier and state. -/
theorem claim_C7_query_token_rejected :
    (Handshake.mk ⟨none, none⟩ (some "tok")).query_token = some "tok" ∧
    extract_token_from_handshake (Handshake.mk ⟨none, none⟩ (some "tok")).auth
      = none ∧
    (∀ (verify : String → Option UserData) (now : Nat) (sid : Sid)
        (st : ConnState),
      connect verify now sid (Handshake.mk ⟨none, none⟩ (some "tok")).auth st
        = .ok (st, [], false)) :=
  ⟨rfl, rfl, fun _ _ _ _ => rfl⟩

/-- C9 is violated: with u1 registered on socket s1, disconnecting s1 raises
AttributeError at `sockets.romove(sid)`, so the socket is not detached, the
session mirror survives and no offline mark or user_offline broadcast
happens. -/
theorem claim_C9_disconnect_raises :
    disconnect "s1"
        ⟨[(session_key "u1" "s1", "d")], [("u1", "online")], [],
         [("u1", ["s1"])], []⟩
      = .error "AttributeError: list object has no attribute romove" := by
  rfl

/-! ## Message service (`MessageService`, src/app/services/message.py) -/

/-- The row update applied by `edit_message` to every row matching the id:
set the content, mark edited, refresh the timestamp. -/
def edit_upd (now : Nat) (message_id new_content : String) (r : MessageRow) :
    MessageRow :=
  if r.id == message_id then
    { r with content := some new_content, is_edited := true, updated_at := now }
  else r

/-- Embeds `MessageService.edit_message(message_id, user_id, new_content)`
(src/app/services/message.py 115-141): select the rows matching both the id
and the sender; when none, return None and leave the table alone; otherwise
update every row with the id and return the first updated row.  The sender
argument is optional because the socket handler passes the possibly
unresolved session user; an eq filter against None matches no row. -/
def edit_message (now : Nat) (tbl : List MessageRow) (message_id : String)
    (user_id : Option UserId) (new_content : String) :
    List MessageRow × Option MessageRow :=
  let check := tbl.filter
    (fun r => r.id == message_id && some r.sender_id == user_id)
  if check.isEmpty then (tbl, none)
  else
    let tbl1 := tbl.map (edit_upd now message_id new_content)
    (tbl1, (tbl1.filter (fun r => r.id == message_id)).head?)

/-- The row update applied by `delete_message` (soft delete): mark deleted,
blank the content, refresh the timestamp. -/
def delete_upd (now : Nat) (message_id : String) (r : MessageRow) :
    MessageRow :=
  if r.id == message_id then
    { r with is_deleted := true, content := none, updated_at := now }
  else r

/-- Embeds `MessageService.delete_message(message_id, user_id)`
(src/app/services/message.py 143-169): check ownership the same way, soft
delete every row with the id, and return the message id and room id. -/
def delete_message (now : Nat) (tbl : List MessageRow) (message_id : String)
    (user_id : Option UserId) :
    List MessageRow × Option (String × RoomId) :=
  let check := tbl.filter
    (fun r => r.id == message_id && some r.sender_id == user_id)
  match check.head? with
  | none => (tbl, none)
  | some row =>
    let tbl1 := tbl.map (delete_upd now message_id)
    let result := tbl1.filter (fun r => r.id == message_id)
    (tbl1, if result.isEmpty then none else some (message_id, row.room_id))

theorem filter_map_comm {α : Type} (p : α → Bool) (f : α → α)
    (hf : ∀ a, p (f a) = p a) (l : List α) :
    (l.map f).filter p = (l.filter p).map f := by
  induction l with
  | nil => rfl
  | cons a l ih =>
    rw [List.map_cons, List.filter_cons, List.filter_cons, hf a]
    by_cases hp : p a
    · simp only [hp, if_true, List.map_cons, ih]
    · simp only [hp, if_false, ih]
      simp [hp]

theorem filter_and_eq {α : Type} (p q : α → Bool) (l : List α) :
    l.filter (fun a => p a && q a) = (l.filter p).filter q := by
  induction l with
  | nil => rfl
  | cons a l ih =>
    by_cases hp : p a <;> by_cases hq : q a <;>
      simp [List.filter_cons, hp, hq, ih]

/-- Sample stored message used in the concrete scenarios. -/
def msg_m1 : MessageRow :=
  ⟨"m1", "r1", "u1", some "hi", "text", none, false, false, 0⟩

/-- C5 as stated is false: after u1 soft-deletes m1, editing m1 as u1 still
returns an updated row and rewrites the stored table - the edit resurrects
content on the deleted row instead of being a no-op. -/
theorem claim_C5_counterexample :
    (edit_message 2 (delete_message 1 [msg_m1] "m1" (some "u1")).1 "m1"
        (some "u1") "new").2
      = some ⟨"m1", "r1", "u1", some "new", "text", none, true, true, 2⟩ ∧
    (edit_message 2 (delete_message 1 [msg_m1] "m1" (some "u1")).1 "m1"
        (some "u1") "new").1
      ≠ (delete_message 1 [msg_m1] "m1" (some "u1")).1 := by
  refine ⟨rfl, ?_⟩
  decide

/-- C5 amended: delete is not absorbing.  Whenever the owner has a row to
delete, `delete(m, u)` then `edit(m, u, c2)` still succeeds - the ownership
check never filters on is_deleted - and returns the soft-deleted row with
its content overwritten by `c2`, is_edited set and the timestamp refreshed
(is_deleted stays true). -/
theorem claim_C5_delete_not_absorbing (now1 now2 : Nat)
    (tbl : List MessageRow) (m : String) (u : UserId) (c2 : String)
    (h : tbl.filter (fun r => r.id == m && some r.sender_id == some u) ≠ []) :
    ∃ row,
      (edit_message now2 (delete_message now1 tbl m (some u)).1 m (some u)
          c2).2 = some row ∧
      row.content = some c2 ∧ row.is_edited = true ∧
      row.is_deleted = true ∧ row.updated_at = now2 := by
  have hsd : ∀ r, ((delete_upd now1 m r).id == m
        && some (delete_upd now1 m r).sender_id == some u)
      = (r.id == m && some r.sender_id == some u) := by
    intro r; unfold delete_upd; split <;> rfl
  have hid_d : ∀ r : MessageRow, ((delete_upd now1 m r).id == m)
      = (r.id == m) := by
    intro r; unfold delete_upd; split <;> rfl
  have hid_e : ∀ r : MessageRow, ((edit_upd now2 m c2 r).id == m)
      = (r.id == m) := by
    intro r; unfold edit_upd; split <;> rfl
  cases hc : tbl.filter (fun r => r.id == m && some r.sender_id == some u) with
  | nil => exact absurd hc h
  | cons row0 rest =>
    have hdel : (delete_message now1 tbl m (some u)).1
        = tbl.map (delete_upd now1 m) := by
      unfold delete_message
      rw [hc]
      rfl
    have hcheck2 : (tbl.map (delete_upd now1 m)).filter
        (fun r => r.id == m && some r.sender_id == some u)
        = (row0 :: rest).map (delete_upd now1 m) := by
      rw [filter_map_comm _ _ hsd tbl, hc]
    have hisEmpty : ((tbl.map (delete_upd now1 m)).filter
        (fun r => r.id == m && some r.sender_id == some u)).isEmpty = false := by
      rw [hcheck2, List.map_cons]; rfl
    have hrow0 : row0 ∈ tbl.filter
        (fun r => r.id == m && some r.sender_id == some u) := by
      rw [hc]; exact List.mem_cons_self _ _
    have hpid0 : (row0.id == m) = true := by
      have hx := (List.mem_filter.mp hrow0).2
      simp only [Bool.and_eq_true] at hx
      exact hx.1
    have hfil_ne : tbl.filter (fun r => r.id == m) ≠ [] := by
      intro hnil
      have hmem : row0 ∈ tbl.filter (fun r => r.id == m) :=
        List.mem_filter.mpr ⟨(List.mem_filter.mp hrow0).1, hpid0⟩
      rw [hnil] at hmem
      exact absurd hmem (List.not_mem_nil _)
    cases hfl : tbl.filter (fun r => r.id == m) with
    | nil => exact absurd hfl hfil_ne
    | cons r1 rs =>
      have hpid1 : (r1.id == m) = true := by
        have hm : r1 ∈ tbl.filter (fun r => r.id == m) := by
          rw [hfl]; exact List.mem_cons_self _ _
        exact (List.mem_filter.mp hm).2
      have hrow2 : delete_upd now1 m r1
          = { r1 with
              is_deleted := true
              content := none
              updated_at := now1 } := by
        unfold delete_upd; rw [if_pos hpid1]
      have hrow3 : edit_upd now2 m c2 (delete_upd now1 m r1)
          = { delete_upd now1 m r1 with
              content := some c2
              is_edited := true
              updated_at := now2 } := by
        unfold edit_upd
        rw [if_pos (by rw [hid_d]; exact hpid1)]
      refine ⟨edit_upd now2 m c2 (delete_upd now1 m r1), ?_, ?_, ?_, ?_, ?_⟩
      · rw [hdel]
        simp only [edit_message, hisEmpty, Bool.false_eq_true, if_false]
        rw [filter_map_comm _ _ hid_e _, filter_map_comm _ _ hid_d tbl, hfl]
        simp
      · rw [hrow3]
      · rw [hrow3]
      · rw [hrow3]; simp only []
        rw [hrow2]
      · rw [hrow3]

/-- Witness for C5 (amended): the concrete delete-then-edit on the one-row
table, obtained from the amended theorem. -/
theorem claim_C5_delete_not_absorbing_witness :
    ∃ row,
      (edit_message 2 (delete_message 1 [msg_m1] "m1" (some "u1")).1 "m1"
          (some "u1") "new").2 = some row ∧
      row.content = some "new" ∧ row.is_edited = true ∧
      row.is_deleted = true ∧ row.updated_at = 2 :=
  claim_C5_delete_not_absorbing 1 2 [msg_m1] "m1" "u1" "new" (by decide)

/-! ## The `edit_message` socket handler (src/app/sockets/events.py 222-250) -/

/-- Python truthiness of an optional string field of an event payload:
present and nonempty. -/
def truthy_str (s : Option String) : Bool :=
  match s with
  | some t => t != ""
  | none => false

/-- The `edit_message` handler: validate the two required fields, resolve
the session user, call the service, and either emit an error back to the
calling socket only or broadcast message_edited to the room of the updated
row. -/
def edit_message_handler (now : Nat) (sid : Sid)
    (message_id content : Option String) (reg : Registry)
    (tbl : List MessageRow) : List MessageRow × List Emit :=
  if !truthy_str message_id || !truthy_str content then
    (tbl, [Emit.error sid "message_id and content required"])
  else
    let user_id := get_user_id_from_sid reg sid
    let result := edit_message now tbl (message_id.getD "") user_id
      (content.getD "")
    match result.2 with
    | none => (result.1, [Emit.error sid "Failed to edit"])
    | some updated =>
      (result.1, [Emit.message_edited updated.room_id updated])

/-- C6: when the stored sender of the message differs from the session user
H, the edit returns nothing - the table is unchanged, one error event goes
to the originating socket only and no message_edited broadcast happens; when
the sender matches, the edit succeeds: the row gets is_edited true and the
refreshed timestamp and is broadcast to its room. -/
theorem claim_C6_edit_ownership (now : Nat) (sid : Sid) (mid c : String)
    (reg : Registry) (tbl : List MessageRow) (H : UserId) (row : MessageRow)
    (hmid : mid ≠ "") (hcne : c ≠ "")
    (hreg : get_user_id_from_sid reg sid = some H)
    (hrow : tbl.filter (fun r => r.id == mid) = [row]) :
    (row.sender_id ≠ H →
      edit_message_handler now sid (some mid) (some c) reg tbl
        = (tbl, [Emit.error sid "Failed to edit"])) ∧
    (row.sender_id = H →
      edit_message_handler now sid (some mid) (some c) reg tbl
        = (tbl.map (edit_upd now mid c),
           [Emit.message_edited row.room_id (edit_upd now mid c row)]) ∧
      (edit_upd now mid c row).is_edited = true ∧
      (edit_upd now mid c row).updated_at = now ∧
      (edit_upd now mid c row).content = some c) := by
  have hguard : (!truthy_str (some mid) || !truthy_str (some c)) = false := by
    simp [truthy_str, bne_iff_ne, hmid, hcne]
  have hpidr : (row.id == mid) = true := by
    have hmem : row ∈ tbl.filter (fun r => r.id == mid) := by
      rw [hrow]; exact List.mem_cons_self _ _
    exact (List.mem_filter.mp hmem).2
  have hid_e : ∀ r : MessageRow, ((edit_upd now mid c r).id == mid)
      = (r.id == mid) := by
    intro r; unfold edit_upd; split <;> rfl
  have hupd : edit_upd now mid c row
      = { row with
          content := some c
          is_edited := true
          updated_at := now } := by
    unfold edit_upd; rw [if_pos hpidr]
  constructor
  · intro h1
    have hps : (some row.sender_id == some H) = false := by
      cases hsb : (some row.sender_id == some H) with
      | false => rfl
      | true => exact absurd (by simpa using eq_of_beq hsb) h1
    have hsvc : edit_message now tbl mid (some H) c = (tbl, none) := by
      unfold edit_message
      rw [filter_and_eq (fun r => r.id == mid)
        (fun r => some r.sender_id == some H) tbl, hrow,
        List.filter_cons, hps]
      simp only [Bool.false_eq_true, if_false, List.filter_nil,
        List.isEmpty_nil, if_true, eq_self_iff_true]
    simp only [edit_message_handler, hguard, Bool.false_eq_true, if_false,
      hreg, Option.getD_some, hsvc]
  · intro h1
    have hps : (some row.sender_id == some H) = true := by
      rw [h1]; exact beq_self_eq_true _
    have hsvc : edit_message now tbl mid (some H) c
        = (tbl.map (edit_upd now mid c), some (edit_upd now mid c row)) := by
      unfold edit_message
      rw [filter_and_eq (fun r => r.id == mid)
        (fun r => some r.sender_id == some H) tbl, hrow,
        List.filter_cons, hps]
      simp only [eq_self_iff_true, if_true, List.filter_nil,
        List.isEmpty_cons, Bool.false_eq_true, if_false]
      rw [filter_map_comm _ _ hid_e tbl, hrow]
      rfl
    have hroom : (edit_upd now mid c row).room_id = row.room_id := by
      rw [hupd]
    refine ⟨?_, ?_, ?_, ?_⟩
    · simp only [edit_message_handler, hguard, Bool.false_eq_true, if_false,
        hreg, Option.getD_some, hsvc, hroom]
    · rw [hupd]
    · rw [hupd]
    · rw [hupd]

/-- Witness for C6: in the spec scenario the room contains the stored
message of u1; harry, resolved from his own socket, attempts the edit and
gets only the error on his socket, with the table untouched. -/
theorem claim_C6_edit_ownership_witness :
    edit_message_handler 5 "s2" (some "m1") (some "gotcha")
        [("harry", ["s2"])] [msg_m1]
      = ([msg_m1], [Emit.error "s2" "Failed to edit"]) :=
  (claim_C6_edit_ownership 5 "s2" "m1" "gotcha" [("harry", ["s2"])] [msg_m1]
      "harry" msg_m1 (by decide) (by decide) rfl (by decide)).1 (by decide)

/-! ## `leave_room`, typing and status handlers (src/app/sockets/events.py) -/

/-- The Socket.IO room registry: room id to the socket ids inside it. -/
abbrev SocketRooms := List (RoomId × List Sid)

/-- Embeds `sio.leave_room(sid, room_id)`. -/
def sio_leave_room (rooms : SocketRooms) (sid : Sid) (room_id : RoomId) :
    SocketRooms :=
  rooms.map (fun p =>
    if p.1 == room_id then (p.1, p.2.filter (fun s => s != sid)) else p)

/-- The `leave_room` handler (src/app/sockets/events.py 135-158): a falsy
room_id returns silently with no emit; otherwise the socket leaves the room
and, when the session resolves, user_left_room is broadcast to the room.
Nothing in the handler closes the connection. -/
def leave_room_handler (sid : Sid) (room_id : Option String)
    (reg : Registry) (rooms : SocketRooms) : SocketRooms × List Emit :=
  if !truthy_str room_id then (rooms, [])
  else
    let rid := room_id.getD ""
    let rooms1 := sio_leave_room rooms sid rid
    match get_user_id_from_sid reg sid with
    | some user_id => (rooms1, [Emit.user_left_room rid user_id])
    | none => (rooms1, [])

/-- The Redis sets `typing:{room_id}`. -/
abbrev TypingKeys := List (RoomId × List UserId)

/-- Embeds `RedisClient.set_typing`: SADD the user to the typing set of the room
(then EXPIRE). -/
def set_typing (t : TypingKeys) (room_id : RoomId) (u : UserId) :
    TypingKeys :=
  match t.lookup room_id with
  | some us =>
    (room_id, if us.contains u then us else us ++ [u])
      :: t.filter (fun p => p.1 != room_id)
  | none => (room_id, [u]) :: t.filter (fun p => p.1 != room_id)

/-- Embeds `RedisClient.remove_typing`: SREM the user from the typing set. -/
def remove_typing (t : TypingKeys) (room_id : RoomId) (u : UserId) :
    TypingKeys :=
  t.map (fun p =>
    if p.1 == room_id then (p.1, p.2.filter (fun x => x != u)) else p)

/-- The `typing_start` handler (src/app/sockets/events.py 284-306): a falsy
room_id, or an unresolved session, returns silently with no emit; otherwise
SADD to the typing set and broadcast user_typing to the room, skipping the
caller. -/
def typing_start_handler (sid : Sid) (room_id : Option String)
    (reg : Registry) (t : TypingKeys) : TypingKeys × List Emit :=
  if !truthy_str room_id then (t, [])
  else
    match get_user_id_from_sid reg sid with
    | none => (t, [])
    | some user_id =>
      let rid := room_id.getD ""
      (set_typing t rid user_id, [Emit.user_typing rid user_id sid])

/-- The `typing_stop` handler (src/app/sockets/events.py 308-330):
symmetric to `typing_start`, with SREM and user_stopped_typing. -/
def typing_stop_handler (sid : Sid) (room_id : Option String)
    (reg : Registry) (t : TypingKeys) : TypingKeys × List Emit :=
  if !truthy_str room_id then (t, [])
  else
    match get_user_id_from_sid reg sid with
    | none => (t, [])
    | some user_id =>
      let rid := room_id.getD ""
      (remove_typing t rid user_id, [Emit.user_stopped_typing rid user_id sid])

/-- The `update_status` handler (src/app/sockets/events.py 333-359): a
missing status field defaults to online; only an invalid enum value is an
error emit; an unresolved session returns silently; otherwise the presence
service runs and user_status_changed is broadcast, skipping the caller. -/
def update_status_handler (now : Nat) (sid : Sid)
    (status_field : Option String) (reg : Registry) (p : Presence)
    (tbl : List ProfileRow) : (Presence × List ProfileRow) × List Emit :=
  let status := status_field.getD "online"
  if !(["online", "offline", "away", "busy"].contains status) then
    ((p, tbl), [Emit.error sid "Invalid status"])
  else
    match get_user_id_from_sid reg sid with
    | none => ((p, tbl), [])
    | some user_id =>
      let upd := presence_update_status now user_id status p tbl
      ((upd.2.1, upd.2.2), [Emit.user_status_changed user_id status sid])

/-- C8 as stated is false: a leave_room event whose payload lacks room_id
emits nothing at all - in particular no error event - even for a fully
authenticated socket inside a room. -/
theorem claim_C8_counterexample :
    leave_room_handler "s1" none [("u1", ["s1"])] [("r1", ["s1"])]
      = ([("r1", ["s1"])], []) := rfl

/-- C8 amended: on a payload lacking its required field, leave_room,
typing_start and typing_stop return silently, emitting nothing and changing
nothing, while update_status treats the missing status as online and
proceeds without an error emit; none of these handlers closes the
connection. -/
theorem claim_C8_missing_field_behaviour (sid : Sid) (reg : Registry) :
    (∀ rooms, leave_room_handler sid none reg rooms = (rooms, [])) ∧
    (∀ t, typing_start_handler sid none reg t = (t, [])) ∧
    (∀ t, typing_stop_handler sid none reg t = (t, [])) ∧
    (∀ now p tbl u, get_user_id_from_sid reg sid = some u →
      update_status_handler now sid none reg p tbl
        = ((set_user_online u "online" p,
            profiles_update_status now u "online" tbl),
           [Emit.user_status_changed u "online" sid])) := by
  refine ⟨fun rooms => rfl, fun t => rfl, fun t => rfl, ?_⟩
  intro now p tbl u hreg
  simp only [update_status_handler, Option.getD_none, hreg]
  rfl

/-- Witness for C8 (amended): the concrete authenticated socket updating
with a missing status field broadcasts online and emits no error. -/
theorem claim_C8_missing_field_behaviour_witness :
    update_status_handler 7 "s1" none [("u1", ["s1"])] [] [⟨"u1", "busy", 0⟩]
      = (([("u1", "online")], [⟨"u1", "online", 7⟩]),
         [Emit.user_status_changed "u1" "online" "s1"]) :=
  ((claim_C8_missing_field_behaviour "s1" [("u1", ["s1"])]).2.2.2 7 []
      [⟨"u1", "busy", 0⟩] "u1" rfl).trans (by decide)

end ChatBackend
